import Mathlib

/-
Verification development for the network-monitor interface declared in
src/etc/win64_gtk/c/include/glib-2.0/gio/gnetworkmonitor.h.  The header is
declarations only (a C vtable-style interface); the behaviour of the
subsystem is modelled from the accompanying design specification (spec.md),
which describes the Monitor Registry, Connectivity State Tracker,
Reachability Prober and Async Task Runner that the interface implies.
-/

/-- Modelled from the spec: the error kinds of the reachability prober
(spec section 7); the header only declares `GError **` out-parameters, the
concrete error set is missing from src/. -/
inductive ReachabilityError
  | Unreachable
  | Cancelled
  | PlatformUnavailable
  | InvalidEndpoint
  deriving DecidableEq

/-- Modelled from the spec: the outcome delivered through the result or
completion channel of a probe: success, or one of the error kinds. -/
inductive ProbeOutcome
  | ok
  | err : ReachabilityError → ProbeOutcome
  deriving DecidableEq

/-- Modelled from the spec: a cancellation token (`GCancellable` in the
header).  `cancelRequested` records whether cancellation has been
requested on the token. -/
structure Cancellable where
  cancelRequested : Bool
  deriving DecidableEq

/-- Modelled from the spec: an endpoint descriptor (`GSocketConnectable`
in the header).  `wellFormed` records whether the descriptor is valid and
supported; `hasRoute` is the ground truth of the fixed network state: a
route to the target plausibly exists. -/
structure Endpoint where
  wellFormed : Bool
  hasRoute : Bool
  deriving DecidableEq

/-- Modelled from the spec: the Availability State of the Connectivity
State Tracker: a single boolean plus a monotonically increasing
version/generation counter. -/
structure AvailabilityState where
  available : Bool
  version : Nat
  deriving DecidableEq

/-- Modelled from the spec: a state transition published by the platform
watcher: the boolean is replaced by the newly reported value and the
version counter is advanced. -/
def publishTransition (s : AvailabilityState) (newAvail : Bool) : AvailabilityState :=
  ⟨newAvail, s.version + 1⟩

/-- Modelled from the spec: a whole sequence of watcher-published
transitions, applied in the order the platform reported them. -/
def runTransitions (s : AvailabilityState) : List Bool → AvailabilityState
  | [] => s
  | b :: bs => runTransitions (publishTransition s b) bs

/-- Modelled from the spec: `get_network_available` returns the last-known
availability boolean, non-blocking (header symbol
`g_network_monitor_get_network_available`). -/
def isNetworkAvailable (s : AvailabilityState) : Bool :=
  s.available

/-- Modelled from the spec: the internal timeout bounding a synchronous
probe (the spec's example configured timeout of 5 seconds). -/
def probeTimeout : Nat := 5

/-- Modelled from the spec: the result of a synchronous probe: the
outcome delivered on the result channel, whether platform probing I/O was
invoked, and the elapsed blocking time of the call. -/
structure ProbeResult where
  outcome : ProbeOutcome
  ioInvoked : Bool
  elapsed : Nat
  deriving DecidableEq

/-- Modelled from the spec: the synchronous prober `can_reach` (header
symbol `g_network_monitor_can_reach`), whose implementation is missing
from src/.  Per the spec: a probe already cancelled before it starts
returns `Cancelled` without platform I/O; a malformed descriptor is
rejected with `InvalidEndpoint` before any probing begins; with the
network unavailable the probe returns the confident negative
`Unreachable`; otherwise the platform route-level check runs, blocking no
longer than the internal timeout. -/
def canReach (net : AvailabilityState) (ep : Endpoint) (c : Cancellable)
    (platformLatency : Nat) : ProbeResult :=
  if c.cancelRequested then ⟨.err .Cancelled, false, 0⟩
  else if ep.wellFormed = false then ⟨.err .InvalidEndpoint, false, 0⟩
  else if net.available = false then ⟨.err .Unreachable, false, 0⟩
  else if ep.hasRoute then ⟨.ok, true, min platformLatency probeTimeout⟩
  else ⟨.err .Unreachable, true, min platformLatency probeTimeout⟩

/-- Modelled from the spec: the platform conditions visible to the
Monitor Registry during construction: whether each real platform backend
API initialises successfully. -/
structure Platform where
  routeTableWorks : Bool
  linkStateWorks : Bool
  deriving DecidableEq

/-- Modelled from the spec: the backend variants of the design notes:
route-table watcher, link-state API, and the no-op fallback. -/
inductive BackendKind
  | routeTable
  | linkState
  | noOp
  deriving DecidableEq

/-- Modelled from the spec: the Monitor singleton handle, carrying the
backend selected at construction. -/
structure Monitor where
  backend : BackendKind
  deriving DecidableEq

/-- Modelled from the spec: attempted initialisation of the best real
platform backend; it fails when every platform API fails. -/
def initPlatformBackend (p : Platform) : Except Unit Monitor :=
  if p.routeTableWorks then .ok ⟨.routeTable⟩
  else if p.linkStateWorks then .ok ⟨.linkState⟩
  else .error ()

/-- Modelled from the spec: construction of the default Monitor: any
platform-API failure falls back to the no-op backend, so construction
never fails (the function is total into `Monitor`). -/
def constructMonitor (p : Platform) : Monitor :=
  match initPlatformBackend p with
  | .ok m => m
  | .error _ => ⟨.noOp⟩

/-- Modelled from the spec: the availability a monitor reports given the
tracker state; the degraded no-op backend biases toward reporting
connectivity as available. -/
def monitorAvailable (m : Monitor) (s : AvailabilityState) : Bool :=
  match m.backend with
  | .noOp => true
  | _ => s.available

/-- Modelled from the spec: the Monitor Registry state: the process-wide
singleton slot and a count of how many times construction logic ran. -/
structure RegistryState where
  slot : Option Monitor
  constructions : Nat
  deriving DecidableEq

/-- Modelled from the spec: the registry before any call. -/
def initRegistry : RegistryState := ⟨none, 0⟩

/-- Modelled from the spec: one call to `get_default` (header symbol
`g_network_monitor_get_default`), atomic under the spec's one-time-init
guard: it returns the stored singleton, constructing it lazily on the
first call only. -/
def getDefaultStep (p : Platform) (s : RegistryState) : RegistryState × Monitor :=
  match s.slot with
  | some m => (s, m)
  | none => (⟨some (constructMonitor p), s.constructions + 1⟩, constructMonitor p)

/-- Modelled from the spec: an interleaved execution of `n` concurrent
callers of `get_default`; because each call is atomic under the one-time
guard, any concurrent schedule is some serial order of the calls. -/
def runCalls (p : Platform) : Nat → RegistryState → RegistryState × List Monitor
  | 0, s => (s, [])
  | n + 1, s =>
    let r := getDefaultStep p s
    let rest := runCalls p n r.1
    (rest.1, r.2 :: rest.2)

/-- Modelled from the spec: the one-shot completion slot of a Pending
Probe held by the Async Task Runner: still pending, or already delivered
with an outcome. -/
inductive SlotState
  | pending
  | delivered : ProbeOutcome → SlotState
  deriving DecidableEq

/-- Modelled from the spec: an in-flight asynchronous probe
(`g_network_monitor_can_reach_async` in the header): its completion slot
and the number of times the completion callback has fired. -/
structure ProbeTask where
  slot : SlotState
  firedCount : Nat
  deriving DecidableEq

/-- Modelled from the spec: a freshly scheduled probe: pending, callback
not yet fired. -/
def initProbeTask : ProbeTask := ⟨.pending, 0⟩

/-- Modelled from the spec: the events that can race on a pending probe:
natural completion with some outcome, or a cancellation request. -/
inductive ProbeEvent
  | natComplete : ProbeOutcome → ProbeEvent
  | cancelRequest
  deriving DecidableEq

/-- Modelled from the spec: the outcome an event would deliver if it wins
the race: natural completion delivers its own outcome, cancellation
delivers the `Cancelled` error. -/
def eventOutcome : ProbeEvent → ProbeOutcome
  | .natComplete o => o
  | .cancelRequest => .err .Cancelled

/-- Modelled from the spec: the Async Task Runner's handling of one event
on a probe: the first event to arrive wins, records its outcome and fires
the completion callback; any later event finds the slot delivered and is
discarded. -/
def stepProbe (t : ProbeTask) (e : ProbeEvent) : ProbeTask :=
  match t.slot with
  | .pending => ⟨.delivered (eventOutcome e), t.firedCount + 1⟩
  | .delivered _ => t

/-- Modelled from the spec: a whole sequence of racing events applied to a
probe in arrival order. -/
def runProbe (t : ProbeTask) : List ProbeEvent → ProbeTask
  | [] => t
  | e :: es => runProbe (stepProbe t e) es

/-- Modelled from the spec: the `GAsyncResult` handed to the ready
callback: it records the probe's outcome for retrieval by the finish
call. -/
structure GAsyncResultModel where
  outcome : ProbeOutcome
  deriving DecidableEq

/-- Modelled from the spec: the async probe run to completion
(`g_network_monitor_can_reach_async` followed by its worker executing the
same check as the sync form), producing the async result delivered to the
callback. -/
def canReachAsyncRun (net : AvailabilityState) (ep : Endpoint) (c : Cancellable)
    (platformLatency : Nat) : GAsyncResultModel :=
  ⟨(canReach net ep c platformLatency).outcome⟩

/-- Modelled from the spec and the header's C calling convention: an
outcome rendered as the `gboolean` return value plus the `GError **`
out-parameter. -/
def cReturn : ProbeOutcome → Bool × Option ReachabilityError
  | .ok => (true, none)
  | .err e => (false, some e)

/-- Modelled from the spec: `g_network_monitor_can_reach_finish`, the
second half of the async operation: it renders the recorded outcome in
the C convention. -/
def canReachFinish (r : GAsyncResultModel) : Bool × Option ReachabilityError :=
  cReturn r.outcome

/-- Modelled from the spec: the synchronous `g_network_monitor_can_reach`
rendered in the C convention (gboolean return, `GError **`). -/
def canReachSyncC (net : AvailabilityState) (ep : Endpoint) (c : Cancellable)
    (platformLatency : Nat) : Bool × Option ReachabilityError :=
  cReturn (canReach net ep c platformLatency).outcome

/-- Modelled from the spec: arbitrary mutable process state, used to state
that `get_type` neither reads nor writes it. -/
structure ProcessState where
  counter : Nat
  deriving DecidableEq

/-- Modelled from the spec: the registered GType value of the interface. -/
def gTypeNetworkMonitor : Nat := 1

/-- Modelled from the spec and header: `g_network_monitor_get_type`,
declared `G_GNUC_CONST`: it returns the registered type and leaves the
process state untouched. -/
def gNetworkMonitorGetType (s : ProcessState) : Nat × ProcessState :=
  (gTypeNetworkMonitor, s)

/-- Helper: once the singleton slot is filled, every further call leaves
the registry unchanged and returns the stored monitor. -/
lemma runCalls_filled (p : Platform) (m : Monitor) (k : Nat) :
    ∀ n, runCalls p n ⟨some m, k⟩ = (⟨some m, k⟩, List.replicate n m) := by
  intro n
  induction n with
  | zero => simp [runCalls]
  | succ n ih => simp [runCalls, getDefaultStep, ih, List.replicate]

/-- C1: all calls to get_default in any interleaved execution of n+1
concurrent callers return the identical singleton monitor, and the
construction logic runs exactly once. -/
theorem getDefault_singleton_once (p : Platform) (n : Nat) :
    (runCalls p (n + 1) initRegistry).1.constructions = 1 ∧
    ∀ m ∈ (runCalls p (n + 1) initRegistry).2, m = constructMonitor p := by
  have h1 : runCalls p (n + 1) initRegistry
      = (⟨some (constructMonitor p), 1⟩,
         constructMonitor p :: List.replicate n (constructMonitor p)) := by
    simp [runCalls, getDefaultStep, initRegistry, runCalls_filled]
  rw [h1]
  refine ⟨rfl, ?_⟩
  intro m hm
  rcases List.mem_cons.mp hm with h | h
  · exact h
  · exact List.eq_of_mem_replicate h

/-- C1 witness: three concurrent callers all receive the singleton and
construction ran once. -/
theorem getDefault_singleton_once_witness :
    (runCalls ⟨true, false⟩ 3 initRegistry).1.constructions = 1 ∧
    ∀ m ∈ (runCalls ⟨true, false⟩ 3 initRegistry).2, m = constructMonitor ⟨true, false⟩ :=
  getDefault_singleton_once ⟨true, false⟩ 2

/-- Helper: a probe whose completion slot is already delivered absorbs
every later event unchanged. -/
lemma runProbe_absorb (o : ProbeOutcome) (k : Nat) :
    ∀ es, runProbe ⟨.delivered o, k⟩ es = ⟨.delivered o, k⟩ := by
  intro es
  induction es with
  | nil => rfl
  | cons e es ih => simpa [runProbe, stepProbe] using ih

/-- C2: for any nonempty sequence of racing events on a scheduled probe,
the completion callback fires exactly once and the delivered outcome is
that of the first event (the winner); every later event, cancellation
after natural completion included, is discarded. -/
theorem probe_completion_exactly_once (e : ProbeEvent) (es : List ProbeEvent) :
    runProbe initProbeTask (e :: es) = ⟨.delivered (eventOutcome e), 1⟩ := by
  simp [runProbe, initProbeTask, stepProbe, runProbe_absorb]

/-- C3: a probe whose cancellation token is already set returns the
Cancelled error without ever invoking platform I/O, and Cancelled is a
distinct result from Unreachable. -/
theorem cancelled_before_start (net : AvailabilityState) (ep : Endpoint)
    (c : Cancellable) (lat : Nat) (hc : c.cancelRequested = true) :
    (canReach net ep c lat).outcome = .err .Cancelled ∧
    (canReach net ep c lat).ioInvoked = false ∧
    ReachabilityError.Cancelled ≠ ReachabilityError.Unreachable := by
  refine ⟨?_, ?_, by decide⟩ <;> simp [canReach, hc]

/-- C3 witness: a concrete pre-cancelled probe. -/
theorem cancelled_before_start_witness :
    (canReach ⟨true, 0⟩ ⟨true, true⟩ ⟨true⟩ 3).outcome = .err .Cancelled ∧
    (canReach ⟨true, 0⟩ ⟨true, true⟩ ⟨true⟩ 3).ioInvoked = false ∧
    ReachabilityError.Cancelled ≠ ReachabilityError.Unreachable :=
  cancelled_before_start ⟨true, 0⟩ ⟨true, true⟩ ⟨true⟩ 3 rfl

/-- C4: when every platform API fails during construction, get_default
still produces a usable monitor: the no-op fallback, which reports
connectivity as available in every tracker state; no construction-time
failure escapes (constructMonitor is total into Monitor). -/
theorem construction_never_fails (p : Platform)
    (h1 : p.routeTableWorks = false) (h2 : p.linkStateWorks = false) :
    constructMonitor p = ⟨.noOp⟩ ∧
    ∀ s : AvailabilityState, monitorAvailable (constructMonitor p) s = true := by
  have hm : constructMonitor p = ⟨.noOp⟩ := by
    simp [constructMonitor, initPlatformBackend, h1, h2]
  refine ⟨hm, ?_⟩
  intro s
  rw [hm]
  rfl

/-- C4 witness: the platform on which both backend APIs fail. -/
theorem construction_never_fails_witness :
    constructMonitor ⟨false, false⟩ = ⟨.noOp⟩ ∧
    ∀ s : AvailabilityState, monitorAvailable (constructMonitor ⟨false, false⟩) s = true :=
  construction_never_fails ⟨false, false⟩ rfl rfl

/-- C5: across any sequence of published transitions the version counter
never goes backward, each single update strictly increases it, and the
availability boolean can be set to either value (it flips both ways). -/
theorem availability_version_monotone (s : AvailabilityState) (bs : List Bool) :
    s.version ≤ (runTransitions s bs).version ∧
    (∀ b : Bool, s.version < (publishTransition s b).version) ∧
    (∀ b : Bool, (publishTransition s b).available = b) := by
  refine ⟨?_, ?_, ?_⟩
  · induction bs generalizing s with
    | nil => exact Nat.le_refl _
    | cons b bs ih =>
      have hstep : s.version ≤ (publishTransition s b).version :=
        Nat.le_succ _
      exact le_trans hstep (ih (publishTransition s b))
  · intro b
    exact Nat.lt_succ_self _
  · intro b
    rfl

/-- C6 counterexample: after the watcher reports link down, a probe whose
cancellation token is already set returns Cancelled, not Unreachable, so
not every probe issued after link down returns Unreachable. -/
theorem link_down_not_every_probe_unreachable :
    isNetworkAvailable (publishTransition ⟨true, 0⟩ false) = false ∧
    (canReach (publishTransition ⟨true, 0⟩ false) ⟨true, true⟩ ⟨true⟩ 0).outcome
      ≠ .err .Unreachable := by
  decide

/-- C6 (amended): after the watcher reports link down,
is_network_available returns false, and every probe whose cancellation
token is not already set and whose descriptor is well-formed returns
Unreachable, without invoking platform I/O and within the configured
timeout bound. -/
theorem link_down_probe_unreachable (s : AvailabilityState) (ep : Endpoint)
    (c : Cancellable) (lat : Nat)
    (hc : c.cancelRequested = false) (he : ep.wellFormed = true) :
    isNetworkAvailable (publishTransition s false) = false ∧
    (canReach (publishTransition s false) ep c lat).outcome = .err .Unreachable ∧
    (canReach (publishTransition s false) ep c lat).elapsed ≤ probeTimeout := by
  refine ⟨rfl, ?_, ?_⟩ <;>
    simp [canReach, publishTransition, hc, he, probeTimeout]

/-- C6 witness: a concrete ordinary probe after link down. -/
theorem link_down_probe_unreachable_witness :
    isNetworkAvailable (publishTransition ⟨true, 7⟩ false) = false ∧
    (canReach (publishTransition ⟨true, 7⟩ false) ⟨true, true⟩ ⟨false⟩ 9).outcome
      = .err .Unreachable ∧
    (canReach (publishTransition ⟨true, 7⟩ false) ⟨true, true⟩ ⟨false⟩ 9).elapsed
      ≤ probeTimeout :=
  link_down_probe_unreachable ⟨true, 7⟩ ⟨true, true⟩ ⟨false⟩ 9 rfl rfl

/-- C7 counterexample: a malformed descriptor whose probe is already
cancelled is reported as Cancelled, not InvalidEndpoint, so not every
malformed descriptor is reported with the InvalidEndpoint error. -/
theorem malformed_not_always_invalid :
    (canReach ⟨true, 0⟩ ⟨false, false⟩ ⟨true⟩ 0).outcome ≠ .err .InvalidEndpoint := by
  decide

/-- C7 (amended): a malformed or unsupported descriptor never begins
probing (no platform I/O), and when the probe is not already cancelled it
is reported with the InvalidEndpoint error synchronously; moreover every
probe's failure, on any input, is surfaced as a value of the result
channel (success or one of the error kinds), never as an uncatchable
fault. -/
theorem invalid_endpoint_before_probing (net : AvailabilityState) (ep : Endpoint)
    (c : Cancellable) (lat : Nat) (he : ep.wellFormed = false) :
    (canReach net ep c lat).ioInvoked = false ∧
    (c.cancelRequested = false →
      (canReach net ep c lat).outcome = .err .InvalidEndpoint) ∧
    (∀ (n2 : AvailabilityState) (e2 : Endpoint) (c2 : Cancellable) (l2 : Nat),
      (canReach n2 e2 c2 l2).outcome = .ok ∨
      ∃ er : ReachabilityError, (canReach n2 e2 c2 l2).outcome = .err er) := by
  refine ⟨?_, ?_, ?_⟩
  · cases hc : c.cancelRequested <;> simp [canReach, he, hc]
  · intro hc
    simp [canReach, he, hc]
  · intro n2 e2 c2 l2
    cases h : (canReach n2 e2 c2 l2).outcome with
    | ok => exact Or.inl rfl
    | err er => exact Or.inr ⟨er, rfl⟩

/-- C7 witness: a concrete malformed descriptor with an unset token. -/
theorem invalid_endpoint_before_probing_witness :
    (canReach ⟨true, 0⟩ ⟨false, true⟩ ⟨false⟩ 2).ioInvoked = false ∧
    (Cancellable.cancelRequested ⟨false⟩ = false →
      (canReach ⟨true, 0⟩ ⟨false, true⟩ ⟨false⟩ 2).outcome = .err .InvalidEndpoint) ∧
    (∀ (n2 : AvailabilityState) (e2 : Endpoint) (c2 : Cancellable) (l2 : Nat),
      (canReach n2 e2 c2 l2).outcome = .ok ∨
      ∃ er : ReachabilityError, (canReach n2 e2 c2 l2).outcome = .err er) :=
  invalid_endpoint_before_probing ⟨true, 0⟩ ⟨false, true⟩ ⟨false⟩ 2 rfl

/-- C8: for a fixed network state, submitting a probe asynchronously and
retrieving its outcome with can_reach_finish yields exactly the boolean
result and error that the synchronous can_reach yields on the same
endpoint. -/
theorem async_finish_matches_sync (net : AvailabilityState) (ep : Endpoint)
    (c : Cancellable) (lat : Nat) :
    canReachFinish (canReachAsyncRun net ep c lat) = canReachSyncC net ep c lat := by
  rfl

/-- Helper: the C rendering of an outcome returns false exactly when it
stores an error, and leaves the error slot unset on a true return. -/
lemma cReturn_raises_iff (o : ProbeOutcome) :
    ((cReturn o).1 = false ↔ (cReturn o).2 ≠ none) ∧
    ((cReturn o).1 = true → (cReturn o).2 = none) := by
  cases o <;> simp [cReturn]

/-- C9: both can_reach and can_reach_finish follow the raises-iff
convention: the gboolean return is false exactly when an error is stored
in the out-parameter, and on a true return the out-parameter is unset. -/
theorem raises_iff_convention (net : AvailabilityState) (ep : Endpoint)
    (c : Cancellable) (lat : Nat) (a : GAsyncResultModel) :
    ((canReachSyncC net ep c lat).1 = false ↔ (canReachSyncC net ep c lat).2 ≠ none) ∧
    ((canReachSyncC net ep c lat).1 = true → (canReachSyncC net ep c lat).2 = none) ∧
    ((canReachFinish a).1 = false ↔ (canReachFinish a).2 ≠ none) ∧
    ((canReachFinish a).1 = true → (canReachFinish a).2 = none) := by
  have hs := cReturn_raises_iff (canReach net ep c lat).outcome
  have hf := cReturn_raises_iff a.outcome
  exact ⟨hs.1, hs.2, hf.1, hf.2⟩

/-- C10: get_type is pure and deterministic: any two calls return the
same GType value and neither mutates the process state, so any two calls
are interchangeable. -/
theorem get_type_const (s1 s2 : ProcessState) :
    (gNetworkMonitorGetType s1).1 = (gNetworkMonitorGetType s2).1 ∧
    (gNetworkMonitorGetType s1).2 = s1 := by
  exact ⟨rfl, rfl⟩
